import Mathlib

/-!
# Verification of the logmonster growth-diff, termination and resolver cores

Shallow embedding of the Go sources of `thirukguru/logmonster`:

* `pkg/types/types.go` — the data model (`FileInfo`, `FileGrowth`, `Snapshot`,
  `ServiceInfo`).
* `internal/scanner/walker.go` — `Scanner.CalculateGrowth`, the result
  aggregation of `Scanner.TakeSnapshot`, and the `action.Killer.Kill`
  escalation sequence.
* the scanner snapshot-store file — package-level `CompareSnapshots`.
* `internal/resolver/resolver.go` — `ResolveService` and its
  process-tree fallback.

Modelling conventions:

* Go `int64` values (sizes, thresholds, nanosecond durations and
  timestamps) are embedded as `Int`.  File sizes returned by `stat` are
  non-negative and below `2^63`, so their differences never overflow
  `int64`; arithmetic is therefore exact.
* `time.Time` / `time.Duration` are embedded as nanosecond counts
  (`Int`), matching Go's internal representation; `Duration.Seconds()`
  is exact division by `10^9` in `ℚ`.
* `float64` growth rates are embedded as `ℚ`.  Every rate computed by
  the code is a quotient of an `int64` by a positive duration, so the
  embedded value is the exact real the Go code rounds.
* A Go `map[string]FileInfo` is embedded as an association list
  `List (String × FileInfo)`; iteration over the map is iteration over
  the list, and a well-formed map has `Nodup` keys.  Universal theorems
  are proved over all association lists, which subsumes all maps.
* `sort.Slice` is embedded as `List.mergeSort` with the same comparator:
  both produce a permutation of the input that is sorted with respect to
  the comparator (Go leaves the order of ties unspecified).
-/

/-- `types.FileInfo` from `pkg/types/types.go`.  `ModTime` is a
nanosecond timestamp, `Permission` the `uint32` permission bits. -/
structure FileInfo where
  Path : String
  Size : Int
  ModTime : Int
  IsDir : Bool
  Permission : Nat
deriving Repr, DecidableEq

/-- `types.FileGrowth` from `pkg/types/types.go`.  `GrowthRate` is in
bytes per second, `Interval` in nanoseconds. -/
structure FileGrowth where
  Path : String
  InitialSize : Int
  FinalSize : Int
  GrowthBytes : Int
  GrowthRate : ℚ
  Interval : Int
deriving Repr, DecidableEq

/-- `types.Snapshot` from `pkg/types/types.go`.  `Files` embeds the Go
map `map[string]FileInfo` as an association list. -/
structure Snapshot where
  Timestamp : Int
  Files : List (String × FileInfo)
  TotalSize : Int
  FileCount : Nat
deriving Repr

/-- `scanner.Config` from `internal/scanner/walker.go`.  `Interval` is in
nanoseconds. -/
structure Config where
  Paths : List String
  Interval : Int
  ThresholdBytes : Int
  WorkerCount : Int
  MaxDepth : Int
  FollowSymlinks : Bool
  ExcludePatterns : List String
deriving Repr

/-- The interval computation shared by `CalculateGrowth` and
`CompareSnapshots`:
`interval := snap2.Timestamp.Sub(snap1.Timestamp); if interval <= 0 { interval = time.Second }`. -/
def intervalNs (snap1 snap2 : Snapshot) : Int :=
  let d := snap2.Timestamp - snap1.Timestamp
  if d ≤ 0 then 1000000000 else d

/-- `time.Duration.Seconds()`: a nanosecond count as seconds, exactly. -/
def durationSeconds (ns : Int) : ℚ := (ns : ℚ) / 1000000000

/-- One iteration of the `CompareSnapshots` loop body (snapshot-store
file): skip directories; a path absent from `snap1` is a new file
reported with `InitialSize = 0` when `Size >= thresholdBytes`; a path
present in both is reported when `Size2 - Size1 >= thresholdBytes`. -/
def compareEntry (snap1 : Snapshot) (thresholdBytes interval : Int)
    (x : String × FileInfo) : Option FileGrowth :=
  if x.2.IsDir then none
  else
    match List.lookup x.1 snap1.Files with
    | none =>
      if x.2.Size ≥ thresholdBytes then
        some ⟨x.1, 0, x.2.Size, x.2.Size,
          (x.2.Size : ℚ) / durationSeconds interval, interval⟩
      else none
    | some info1 =>
      if x.2.Size - info1.Size ≥ thresholdBytes then
        some ⟨x.1, info1.Size, x.2.Size, x.2.Size - info1.Size,
          ((x.2.Size - info1.Size : Int) : ℚ) / durationSeconds interval, interval⟩
      else none

/-- Package-level `CompareSnapshots(snap1, snap2, thresholdBytes)` from
the snapshot-store file: the loop appends at most one `FileGrowth` per
entry of `snap2.Files` in iteration order, with no final sort. -/
def CompareSnapshots (snap1 snap2 : Snapshot) (thresholdBytes : Int) : List FileGrowth :=
  (snap2.Files).filterMap (compareEntry snap1 thresholdBytes (intervalNs snap1 snap2))

/-- One iteration of the `Scanner.CalculateGrowth` loop body
(`internal/scanner/walker.go:333-361`): identical to the
`CompareSnapshots` body except that it has no `IsDir` skip. -/
def calcEntry (snap1 : Snapshot) (thresholdBytes interval : Int)
    (x : String × FileInfo) : Option FileGrowth :=
  match List.lookup x.1 snap1.Files with
  | none =>
    if x.2.Size ≥ thresholdBytes then
      some ⟨x.1, 0, x.2.Size, x.2.Size,
        (x.2.Size : ℚ) / durationSeconds interval, interval⟩
    else none
  | some info1 =>
    if x.2.Size - info1.Size ≥ thresholdBytes then
      some ⟨x.1, info1.Size, x.2.Size, x.2.Size - info1.Size,
        ((x.2.Size - info1.Size : Int) : ℚ) / durationSeconds interval, interval⟩
    else none

/-- `Scanner.CalculateGrowth(snap1, snap2)` from
`internal/scanner/walker.go:325-369`: the collection loop followed by
`sort.Slice(growing, func(i, j) { return growing[i].GrowthRate > growing[j].GrowthRate })`,
i.e. a sort that is non-increasing in `GrowthRate`. -/
def CalculateGrowth (cfg : Config) (snap1 snap2 : Snapshot) : List FileGrowth :=
  let interval := intervalNs snap1 snap2
  ((snap2.Files).filterMap (calcEntry snap1 cfg.ThresholdBytes interval)).mergeSort
    (fun a b => decide (b.GrowthRate ≤ a.GrowthRate))

/-- Go map assignment `files[key] = info`: replace the binding if the key
is present, otherwise add it. -/
def insertFile : List (String × FileInfo) → String → FileInfo → List (String × FileInfo)
  | [], key, info => [(key, info)]
  | kv :: rest, key, info =>
    if kv.1 = key then (key, info) :: rest else kv :: insertFile rest key info

/-- The result-aggregation loop of `Scanner.TakeSnapshot`
(`internal/scanner/walker.go:237-244`).  The walk/stat pipeline is
abstracted by its output: `results` is the stream of `FileInfo` records
the workers emit (one per successfully stat'ed path; duplicated or
nested configured roots can emit the same path more than once).  The
loop runs `snapshot.Files[info.Path] = info` and, for non-directories,
`snapshot.TotalSize += info.Size; snapshot.FileCount++`. -/
def takeSnapshotStep (snap : Snapshot) (info : FileInfo) : Snapshot :=
  { snap with
    Files := insertFile snap.Files info.Path info
    TotalSize := snap.TotalSize + (if info.IsDir then 0 else info.Size)
    FileCount := snap.FileCount + (if info.IsDir then 0 else 1) }

/-- The whole aggregation: fold the per-record step over the result
stream, starting from the empty snapshot stamped at `time.Now()`. -/
def TakeSnapshot (timestamp : Int) (results : List FileInfo) : Snapshot :=
  results.foldl takeSnapshotStep ⟨timestamp, [], 0, 0⟩

/-- Specification-side reading of `Snapshot.TotalSize`: the sum of
`Size` over the non-directory entries of `Files`. -/
def sumNonDirSizes (files : List (String × FileInfo)) : Int :=
  ((files.filter (fun kv => !kv.2.IsDir)).map (fun kv => kv.2.Size)).sum

/-- Specification-side reading of `Snapshot.FileCount`: the number of
non-directory entries of `Files`. -/
def countNonDir (files : List (String × FileInfo)) : Nat :=
  (files.filter (fun kv => !kv.2.IsDir)).length

/-- Signals sent by `action.Killer.Kill`. -/
inductive Sig where
  | SIGTERM
  | SIGKILL
deriving Repr, DecidableEq

/-- Error outcomes of `action.Killer.Kill`, one per `fmt.Errorf` site in
the source. -/
inductive KillErr where
  | processNotFound (pid : Int)
  | sigtermFailed
  | sigkillFailed
  | stillRunning (pid : Int)
deriving Repr, DecidableEq

/-- Embeds `action.Killer`: the configured graceful-termination timeout,
in nanoseconds. -/
structure Killer where
  Timeout : Int
deriving Repr

/-- Environment of one `Kill` run, resolving each process-control race
deterministically:

* `findProcessErr` — whether `os.FindProcess` fails.  On Unix it never
  does (it performs no system call), so every reachable run has it
  `false`; the branch is kept because the source checks it.
* `aliveAtSigterm` — whether the target is alive when SIGTERM is
  attempted.  Go's `os.Process.Signal` returns `os.ErrProcessDone` for
  a dead process (it maps `ESRCH` to `ErrProcessDone`), and `Kill`
  treats that sentinel as success.
* `sigtermErr` — whether signalling the live target fails for another
  reason (e.g. `EPERM`).
* `exitsWithinTimeout` — whether the 100ms-interval `processExists`
  poll observes the target gone before `time.After(k.Timeout)` fires;
  this resolves the `select` between the two channels.
* `aliveAtSigkill` — whether the target is still alive when SIGKILL is
  attempted after the timeout (`ErrProcessDone` again means success:
  the benign poll/signal race of the specification).
* `sigkillErr` — whether the SIGKILL attempt fails for another reason.
* `aliveAfterGrace` — whether the final `processExists` probe, taken
  after the fixed 500ms grace sleep, still sees the target. -/
structure KillEnv where
  findProcessErr : Bool
  aliveAtSigterm : Bool
  sigtermErr : Bool
  exitsWithinTimeout : Bool
  aliveAtSigkill : Bool
  sigkillErr : Bool
  aliveAfterGrace : Bool
deriving Repr, DecidableEq

/-- Embeds `action.Killer.Kill(pid)` (`internal/scanner/walker.go`, the
`action` section).  Returns the call's outcome together with the trace
of signal attempts as `(elapsed nanoseconds, signal)` pairs: SIGTERM is
attempted immediately; SIGKILL only in the branch where
`time.After(k.Timeout)` wins the select, hence at elapsed time
`k.Timeout`. -/
def Kill (k : Killer) (env : KillEnv) (pid : Int) :
    Except KillErr Unit × List (Int × Sig) :=
  if env.findProcessErr then (.error (.processNotFound pid), [])
  else if env.aliveAtSigterm = false then (.ok (), [(0, .SIGTERM)])
  else if env.sigtermErr then (.error .sigtermFailed, [(0, .SIGTERM)])
  else if env.exitsWithinTimeout then (.ok (), [(0, .SIGTERM)])
  else if env.aliveAtSigkill = false then
    (.ok (), [(0, .SIGTERM), (k.Timeout, .SIGKILL)])
  else if env.sigkillErr then
    (.error .sigkillFailed, [(0, .SIGTERM), (k.Timeout, .SIGKILL)])
  else if env.aliveAfterGrace then
    (.error (.stillRunning pid), [(0, .SIGTERM), (k.Timeout, .SIGKILL)])
  else (.ok (), [(0, .SIGTERM), (k.Timeout, .SIGKILL)])

/-- Embeds `types.ServiceInfo` from `pkg/types/types.go`. -/
structure ServiceInfo where
  Unit : String
  Status : String
  MainPID : Int
  StartTime : Int
  Description : String
deriving Repr, DecidableEq

/-- Embeds ASCII `strings.ToLower`. -/
def lowerStr (s : String) : String := ⟨s.data.map Char.toLower⟩

/-- ASCII whitespace, as recognized by `strings.TrimSpace`. -/
def isSpaceChar (c : Char) : Bool :=
  c = ' ' || c = '\t' || c = '\n' || c = '\r' || c = '\x0b' || c = '\x0c'

/-- Embeds `strings.TrimSpace` for the ASCII content of
`/proc/<pid>/comm`. -/
def trimStr (s : String) : String :=
  ⟨((s.data.dropWhile isSpaceChar).reverse.dropWhile isSpaceChar).reverse⟩

/-- Substring containment on character lists. -/
def containsSub : List Char → List Char → Bool
  | [], needle => needle.isEmpty
  | c :: rest, needle => needle.isPrefixOf (c :: rest) || containsSub rest needle

/-- Embeds `strings.Contains(s, sub)`. -/
def strContains (s sub : String) : Bool := containsSub s.data sub.data

/-- The fixed catalogue of well-known service-name substrings in
`resolver.getServiceNameFromComm`. -/
def serviceNames : List String :=
  ["apache2", "nginx", "mysql", "postgres", "redis",
   "docker", "containerd", "tomcat", "java", "node",
   "python", "php", "ruby", "mongod", "elasticsearch"]

/-- Environment of a resolver run:

* `connAvailable` — whether `r.conn != nil` (the D-Bus system bus was
  reachable when the resolver was constructed).
* `systemd pid` — the result of `resolveWithSystemd(pid)`: its only
  error path is a failing `GetUnitByPID` call (every later property
  fetch is defaulted on failure), so the result is either that error or
  a complete `ServiceInfo`, never nil without an error.
* `comm pid` — the content of `/proc/<pid>/comm`, `none` when the read
  fails.
* `parent pid` — the parent PID parsed from `/proc/<pid>/stat`, `none`
  when the read or the parse fails. -/
structure ResolverEnv where
  connAvailable : Bool
  systemd : Int → Except String ServiceInfo
  comm : Int → Option String
  parent : Int → Option Int

/-- Embeds `resolver.getServiceNameFromComm(pid)`: read and trim the
comm name; if its lower-casing contains a catalogue substring, return
`comm + ".service"`, else the empty string. -/
def getServiceNameFromComm (r : ResolverEnv) (pid : Int) : String :=
  match r.comm pid with
  | none => ""
  | some data =>
    if serviceNames.any (fun svc => strContains (lowerStr (trimStr data)) svc) then
      trimStr data ++ ".service"
    else ""

/-- Outcome of `ResolveService` / `resolveFromProcessTree`.  `fuelOut`
is a modelling artifact only: the Go `for currentPID > 1` loop has no
built-in bound, so the embedding runs it on explicit fuel, and
`fuelOut` marks a run whose loop has not yet finished. -/
inductive ResolveOutcome where
  | ok (info : ServiceInfo)
  | notFound (pid : Int)
  | fuelOut
deriving Repr, DecidableEq

/-- The loop of `resolver.resolveFromProcessTree`
(`internal/resolver/resolver.go:92-114`): while `currentPID > 1`,
return a synthesized `ServiceInfo` on the first catalogue match, else
step to the parent; break — returning the not-found error that names
the original `pid` — when the parent lookup fails or the parent
is ≤ 1. -/
def resolveLoop (r : ResolverEnv) (pid : Int) : Nat → Int → ResolveOutcome
  | 0, _ => .fuelOut
  | fuel + 1, currentPID =>
    if currentPID > 1 then
      if getServiceNameFromComm r currentPID ≠ "" then
        .ok ⟨getServiceNameFromComm r currentPID, "unknown (fallback)", currentPID, 0, ""⟩
      else
        match r.parent currentPID with
        | none => .notFound pid
        | some parentPID =>
          if parentPID ≤ 1 then .notFound pid
          else resolveLoop r pid fuel parentPID
    else .notFound pid

/-- Embeds `resolver.resolveFromProcessTree(pid)`. -/
def resolveFromProcessTree (r : ResolverEnv) (fuel : Nat) (pid : Int) : ResolveOutcome :=
  resolveLoop r pid fuel pid

/-- Embeds `resolver.ResolveService(pid)`
(`internal/resolver/resolver.go:38-49`): when connected, try systemd
first and return its answer on success; on any tier-1 failure fall back
to the process tree.  The second component records whether the tier-2
fallback was invoked. -/
def ResolveService (r : ResolverEnv) (fuel : Nat) (pid : Int) :
    ResolveOutcome × Bool :=
  if r.connAvailable then
    match r.systemd pid with
    | .ok info => (.ok info, false)
    | .error _ => (resolveFromProcessTree r fuel pid, true)
  else (resolveFromProcessTree r fuel pid, true)

/-- Concrete resolver environment used to evaluate the fallback: no bus
connection, PID 42 whose comm is `nginx-wrapper`, no readable parents. -/
def fallbackEnv : ResolverEnv :=
  ⟨false, fun _ => .error "dbus unavailable",
   fun p => if p = 42 then some "nginx-wrapper" else none,
   fun _ => none⟩

/-- Everything a single successful `calcEntry` step guarantees about the
entry it emits. -/
theorem calcEntry_sound (snap1 : Snapshot) (t iv : Int) (x : String × FileInfo)
    (g : FileGrowth) (h : calcEntry snap1 t iv x = some g) :
    t ≤ g.GrowthBytes ∧ g.GrowthBytes = g.FinalSize - g.InitialSize ∧
    g.Path = x.1 ∧ g.FinalSize = x.2.Size ∧ g.Interval = iv ∧
    g.GrowthRate = (g.GrowthBytes : ℚ) / durationSeconds iv ∧
    (List.lookup x.1 snap1.Files = none → g.InitialSize = 0) ∧
    (∀ i1, List.lookup x.1 snap1.Files = some i1 → g.InitialSize = i1.Size) := by
  rw [calcEntry] at h
  split at h
  · rename_i hlk
    split at h
    · rename_i hth
      injection h with h
      subst h
      refine ⟨hth, by simp, rfl, rfl, rfl, rfl, fun _ => rfl, ?_⟩
      intro i1 hi1
      rw [hlk] at hi1
      exact Option.noConfusion hi1
    · exact Option.noConfusion h
  · rename_i i1 hlk
    split at h
    · rename_i hth
      injection h with h
      subst h
      refine ⟨hth, by simp, rfl, rfl, rfl, rfl, ?_, ?_⟩
      · intro hn
        rw [hlk] at hn
        exact Option.noConfusion hn
      · intro i1' hi1'
        rw [hlk] at hi1'
        injection hi1' with hi1'
        rw [hi1']
    · exact Option.noConfusion h

/-- Everything a single successful `compareEntry` step guarantees about
the entry it emits; in addition to the `calcEntry` guarantees the source
entry is not a directory. -/
theorem compareEntry_sound (snap1 : Snapshot) (t iv : Int) (x : String × FileInfo)
    (g : FileGrowth) (h : compareEntry snap1 t iv x = some g) :
    (t ≤ g.GrowthBytes ∧ g.GrowthBytes = g.FinalSize - g.InitialSize ∧
      g.Path = x.1 ∧ g.FinalSize = x.2.Size ∧ g.Interval = iv ∧
      g.GrowthRate = (g.GrowthBytes : ℚ) / durationSeconds iv ∧
      (List.lookup x.1 snap1.Files = none → g.InitialSize = 0) ∧
      (∀ i1, List.lookup x.1 snap1.Files = some i1 → g.InitialSize = i1.Size)) ∧
    x.2.IsDir = false := by
  rw [compareEntry] at h
  split at h
  · exact Option.noConfusion h
  · rename_i hdir
    refine ⟨calcEntry_sound snap1 t iv x g ?_, by simpa using hdir⟩
    rw [calcEntry]
    exact h

/-- `compareEntry` and `calcEntry` agree on non-directory entries. -/
theorem compareEntry_eq_calcEntry (snap1 : Snapshot) (t iv : Int)
    (x : String × FileInfo) (hdir : x.2.IsDir = false) :
    compareEntry snap1 t iv x = calcEntry snap1 t iv x := by
  rw [compareEntry, calcEntry, hdir]
  simp

/-- C1: for every pair of snapshots and every threshold, every entry
returned by either growth diff satisfies `GrowthBytes ≥ T` and
`GrowthBytes = FinalSize - InitialSize`, and a file absent from the
earlier snapshot is reported with `InitialSize = 0` and
`GrowthBytes = FinalSize`. -/
theorem growth_entries_sound (snap1 snap2 : Snapshot) (t : Int) (cfg : Config) :
    (∀ g ∈ CompareSnapshots snap1 snap2 t,
      t ≤ g.GrowthBytes ∧ g.GrowthBytes = g.FinalSize - g.InitialSize ∧
      (List.lookup g.Path snap1.Files = none →
        g.InitialSize = 0 ∧ g.GrowthBytes = g.FinalSize)) ∧
    (∀ g ∈ CalculateGrowth cfg snap1 snap2,
      cfg.ThresholdBytes ≤ g.GrowthBytes ∧
      g.GrowthBytes = g.FinalSize - g.InitialSize ∧
      (List.lookup g.Path snap1.Files = none →
        g.InitialSize = 0 ∧ g.GrowthBytes = g.FinalSize)) := by
  constructor
  · intro g hg
    obtain ⟨x, _, hx⟩ := List.mem_filterMap.mp hg
    obtain ⟨⟨hth, heq, hpath, hfin, _, _, hnone, _⟩, _⟩ :=
      compareEntry_sound snap1 t _ x g hx
    refine ⟨hth, heq, ?_⟩
    intro hn
    rw [hpath] at hn
    have h0 := hnone hn
    exact ⟨h0, by omega⟩
  · intro g hg
    rw [CalculateGrowth, List.mem_mergeSort] at hg
    obtain ⟨x, _, hx⟩ := List.mem_filterMap.mp hg
    obtain ⟨hth, heq, hpath, hfin, _, _, hnone, _⟩ :=
      calcEntry_sound snap1 cfg.ThresholdBytes _ x g hx
    refine ⟨hth, heq, ?_⟩
    intro hn
    rw [hpath] at hn
    have h0 := hnone hn
    exact ⟨h0, by omega⟩

/-- Witness for C1: both diffs evaluated on a concrete snapshot pair
containing a file that only exists in the later snapshot. -/
theorem growth_entries_sound_witness :
    ∀ g ∈ CompareSnapshots ⟨0, [], 0, 0⟩
        ⟨0, [("a", ⟨"a", 10, 0, false, 420⟩)], 10, 1⟩ 1,
      1 ≤ g.GrowthBytes ∧ g.GrowthBytes = g.FinalSize - g.InitialSize ∧
      (List.lookup g.Path (Snapshot.Files ⟨0, [], 0, 0⟩) = none →
        g.InitialSize = 0 ∧ g.GrowthBytes = g.FinalSize) :=
  (growth_entries_sound ⟨0, [], 0, 0⟩
    ⟨0, [("a", ⟨"a", 10, 0, false, 420⟩)], 10, 1⟩ 1
    ⟨[], 1000000000, 1, 4, 10, false, []⟩).1

/-- In an association list with `Nodup` keys (every well-formed Go map),
the lookup of a member's key returns that member's value. -/
theorem lookup_eq_some_of_mem_nodup {l : List (String × FileInfo)}
    {x : String × FileInfo} (hnd : (l.map Prod.fst).Nodup) (hx : x ∈ l) :
    List.lookup x.1 l = some x.2 := by
  induction l with
  | nil => cases hx
  | cons kv rest ih =>
    rcases List.mem_cons.mp hx with rfl | hx'
    · simp [List.lookup]
    · have hne : (x.1 == kv.1) = false := by
        simp only [beq_eq_false_iff_ne, ne_eq]
        intro he
        have : kv.1 ∈ rest.map Prod.fst := he ▸ List.mem_map_of_mem Prod.fst hx'
        exact (List.nodup_cons.mp (by simpa using hnd)).1 this
      rw [List.lookup, hne]
      exact ih (List.nodup_cons.mp (by simpa using hnd)).2 hx'

/-- C2 (amended): the output of `Scanner.CalculateGrowth` is sorted
non-increasing by `GrowthRate` (and, being a pure function of its
inputs, it yields the same order on every run on identical input).
`CompareSnapshots` performs no sort: its output is in snapshot-map
iteration order and need not be sorted — see the counterexample. -/
theorem calculateGrowth_sorted (cfg : Config) (snap1 snap2 : Snapshot) :
    List.Pairwise (fun a b : FileGrowth => b.GrowthRate ≤ a.GrowthRate)
      (CalculateGrowth cfg snap1 snap2) := by
  rw [CalculateGrowth]
  refine List.Pairwise.imp ?_ (List.sorted_mergeSort ?_ ?_
    ((snap2.Files).filterMap (calcEntry snap1 cfg.ThresholdBytes (intervalNs snap1 snap2))))
  · intro a b hab
    exact of_decide_eq_true hab
  · intro a b c hab hbc
    exact decide_eq_true (le_trans (of_decide_eq_true hbc) (of_decide_eq_true hab))
  · intro a b
    rcases le_total b.GrowthRate a.GrowthRate with h | h
    · simp [h]
    · simp [h]

/-- Counterexample to C2 as stated: `CompareSnapshots` (one of the two
"growth diff" implementations the claim covers) does not sort.  Two new
files whose growth rates are 10 and 20 bytes/sec are returned in
iteration order, which is increasing, not non-increasing. -/
theorem compareSnapshots_unsorted_counterexample :
    ¬ List.Pairwise (fun a b : FileGrowth => b.GrowthRate ≤ a.GrowthRate)
      (CompareSnapshots ⟨0, [], 0, 0⟩
        ⟨0, [("a", ⟨"a", 10, 0, false, 420⟩), ("b", ⟨"b", 20, 0, false, 420⟩)], 30, 2⟩
        1) := by
  have h : CompareSnapshots ⟨0, [], 0, 0⟩
      ⟨0, [("a", ⟨"a", 10, 0, false, 420⟩), ("b", ⟨"b", 20, 0, false, 420⟩)], 30, 2⟩ 1 =
      [⟨"a", 0, 10, 10, 10, 1000000000⟩, ⟨"b", 0, 20, 20, 20, 1000000000⟩] := by
    simp +decide [CompareSnapshots, compareEntry, intervalNs, durationSeconds]
  rw [h]
  intro hp
  have := List.rel_of_pairwise_cons hp (List.mem_singleton.mpr rfl)
  norm_num at this

/-- C3 (amended): `CompareSnapshots` reports only non-directory entries
of the later snapshot.  (`Scanner.CalculateGrowth` has no such filter —
see the counterexample.) -/
theorem compareSnapshots_skips_dirs (snap1 snap2 : Snapshot) (t : Int)
    (hnd : (snap2.Files.map Prod.fst).Nodup) :
    ∀ g ∈ CompareSnapshots snap1 snap2 t, ∀ info,
      List.lookup g.Path snap2.Files = some info → info.IsDir = false := by
  intro g hg info hinfo
  obtain ⟨x, hxmem, hx⟩ := List.mem_filterMap.mp hg
  obtain ⟨⟨_, _, hpath, _, _, _, _, _⟩, hdir⟩ := compareEntry_sound snap1 t _ x g hx
  rw [hpath, lookup_eq_some_of_mem_nodup hnd hxmem] at hinfo
  injection hinfo with h
  rw [← h]
  exact hdir

/-- Witness for C3: a concrete one-file later snapshot. -/
theorem compareSnapshots_skips_dirs_witness :
    FileInfo.IsDir ⟨"a", 10, 0, false, 420⟩ = false :=
  compareSnapshots_skips_dirs ⟨0, [], 0, 0⟩
    ⟨0, [("a", ⟨"a", 10, 0, false, 420⟩)], 10, 1⟩ 1 (by decide)
    ⟨"a", 0, 10, 10, 10, 1000000000⟩
    (by simp +decide [CompareSnapshots, compareEntry, intervalNs, durationSeconds])
    ⟨"a", 10, 0, false, 420⟩ (by decide)

/-- Counterexample to C3 as stated: `Scanner.CalculateGrowth` does not
filter directories.  A directory entry of the later snapshot whose
recorded size meets the threshold is reported as growth. -/
theorem calculateGrowth_reports_dir_counterexample :
    CalculateGrowth ⟨[], 1000000000, 10, 4, 10, false, []⟩ ⟨0, [], 0, 0⟩
        ⟨0, [("d", ⟨"d", 100, 0, true, 493⟩)], 0, 0⟩ =
      [⟨"d", 0, 100, 100, 100, 1000000000⟩] ∧
    List.lookup "d" (Snapshot.Files ⟨0, [("d", ⟨"d", 100, 0, true, 493⟩)], 0, 0⟩) =
      some ⟨"d", 100, 0, true, 493⟩ ∧
    FileInfo.IsDir ⟨"d", 100, 0, true, 493⟩ = true := by
  refine ⟨?_, by decide, by decide⟩
  simp +decide [CalculateGrowth, calcEntry, intervalNs, durationSeconds, List.mergeSort]

/-- C4 (amended): for every non-negative threshold neither diff reports
truncation (`FinalSize < InitialSize`), and — for every threshold —
every reported path is a key of the later snapshot's `Files` map, so
deleted files are never reported.  (A negative threshold makes the code
report truncation: see the counterexample.) -/
theorem growth_no_truncation_no_deleted (snap1 snap2 : Snapshot) (t : Int)
    (cfg : Config) :
    (0 ≤ t → ∀ g ∈ CompareSnapshots snap1 snap2 t, g.InitialSize ≤ g.FinalSize) ∧
    (∀ g ∈ CompareSnapshots snap1 snap2 t, ∃ info, (g.Path, info) ∈ snap2.Files) ∧
    (0 ≤ cfg.ThresholdBytes →
      ∀ g ∈ CalculateGrowth cfg snap1 snap2, g.InitialSize ≤ g.FinalSize) ∧
    (∀ g ∈ CalculateGrowth cfg snap1 snap2, ∃ info, (g.Path, info) ∈ snap2.Files) := by
  refine ⟨?_, ?_, ?_, ?_⟩
  · intro ht g hg
    obtain ⟨x, _, hx⟩ := List.mem_filterMap.mp hg
    obtain ⟨⟨hth, heq, _, _, _, _, _, _⟩, _⟩ := compareEntry_sound snap1 t _ x g hx
    omega
  · intro g hg
    obtain ⟨x, hxmem, hx⟩ := List.mem_filterMap.mp hg
    obtain ⟨⟨_, _, hpath, _, _, _, _, _⟩, _⟩ := compareEntry_sound snap1 t _ x g hx
    exact ⟨x.2, by rw [hpath]; exact hxmem⟩
  · intro ht g hg
    rw [CalculateGrowth, List.mem_mergeSort] at hg
    obtain ⟨x, _, hx⟩ := List.mem_filterMap.mp hg
    obtain ⟨hth, heq, _, _, _, _, _, _⟩ := calcEntry_sound snap1 cfg.ThresholdBytes _ x g hx
    omega
  · intro g hg
    rw [CalculateGrowth, List.mem_mergeSort] at hg
    obtain ⟨x, hxmem, hx⟩ := List.mem_filterMap.mp hg
    obtain ⟨_, _, hpath, _, _, _, _, _⟩ := calcEntry_sound snap1 cfg.ThresholdBytes _ x g hx
    exact ⟨x.2, by rw [hpath]; exact hxmem⟩

/-- Witness for C4: the no-truncation part at threshold 1 on a concrete
grown file. -/
theorem growth_no_truncation_no_deleted_witness :
    ∀ g ∈ CompareSnapshots ⟨0, [("a", ⟨"a", 5, 0, false, 420⟩)], 5, 1⟩
        ⟨0, [("a", ⟨"a", 9, 0, false, 420⟩)], 9, 1⟩ 1,
      g.InitialSize ≤ g.FinalSize :=
  (growth_no_truncation_no_deleted ⟨0, [("a", ⟨"a", 5, 0, false, 420⟩)], 5, 1⟩
    ⟨0, [("a", ⟨"a", 9, 0, false, 420⟩)], 9, 1⟩ 1
    ⟨[], 1000000000, 1, 4, 10, false, []⟩).1 (by norm_num)

/-- Counterexample to C4 as stated: with a negative threshold (reachable
— neither `scanner.Config` nor the configuration loader validates
positivity) a shrunk file is reported with `FinalSize < InitialSize`. -/
theorem growth_truncation_counterexample :
    ∃ g ∈ CompareSnapshots ⟨0, [("a", ⟨"a", 50, 0, false, 420⟩)], 50, 1⟩
        ⟨0, [("a", ⟨"a", 20, 0, false, 420⟩)], 20, 1⟩ (-100),
      g.FinalSize < g.InitialSize := by
  refine ⟨⟨"a", 50, 20, -30, -30, 1000000000⟩, ?_, by norm_num⟩
  simp +decide [CompareSnapshots, compareEntry, intervalNs, durationSeconds]

/-- C5: the rate interval is `later.Timestamp - earlier.Timestamp`,
with exactly one second substituted when that difference is
non-positive; it is always positive, and every entry of either diff has
`GrowthRate = GrowthBytes / interval-seconds` with positive seconds. -/
theorem growth_interval_sound (snap1 snap2 : Snapshot) (t : Int) (cfg : Config) :
    0 < intervalNs snap1 snap2 ∧
    0 < durationSeconds (intervalNs snap1 snap2) ∧
    (snap1.Timestamp < snap2.Timestamp →
      intervalNs snap1 snap2 = snap2.Timestamp - snap1.Timestamp) ∧
    (snap2.Timestamp ≤ snap1.Timestamp → intervalNs snap1 snap2 = 1000000000) ∧
    (∀ g ∈ CompareSnapshots snap1 snap2 t,
      g.Interval = intervalNs snap1 snap2 ∧
      g.GrowthRate = (g.GrowthBytes : ℚ) / durationSeconds (intervalNs snap1 snap2)) ∧
    (∀ g ∈ CalculateGrowth cfg snap1 snap2,
      g.Interval = intervalNs snap1 snap2 ∧
      g.GrowthRate = (g.GrowthBytes : ℚ) / durationSeconds (intervalNs snap1 snap2)) := by
  have hpos : 0 < intervalNs snap1 snap2 := by
    rw [intervalNs]
    split
    · norm_num
    · omega
  refine ⟨hpos, ?_, ?_, ?_, ?_, ?_⟩
  · rw [durationSeconds]
    have : (0 : ℚ) < (intervalNs snap1 snap2 : ℚ) := by exact_mod_cast hpos
    positivity
  · intro hlt
    rw [intervalNs, if_neg (by omega)]
  · intro hle
    rw [intervalNs, if_pos (by omega)]
  · intro g hg
    obtain ⟨x, _, hx⟩ := List.mem_filterMap.mp hg
    obtain ⟨⟨_, _, _, _, hiv, hrate, _, _⟩, _⟩ := compareEntry_sound snap1 t _ x g hx
    exact ⟨hiv, hrate⟩
  · intro g hg
    rw [CalculateGrowth, List.mem_mergeSort] at hg
    obtain ⟨x, _, hx⟩ := List.mem_filterMap.mp hg
    obtain ⟨_, _, _, _, hiv, hrate, _, _⟩ := calcEntry_sound snap1 cfg.ThresholdBytes _ x g hx
    exact ⟨hiv, hrate⟩

/-- Witness for C5: both interval cases evaluated concretely — a 5s gap
is used as-is, an equal-timestamp pair gets exactly one second. -/
theorem growth_interval_sound_witness :
    intervalNs ⟨0, [], 0, 0⟩ ⟨5000000000, [], 0, 0⟩ = 5000000000 - 0 ∧
    intervalNs ⟨7, [], 0, 0⟩ ⟨7, [], 0, 0⟩ = 1000000000 :=
  ⟨(growth_interval_sound ⟨0, [], 0, 0⟩ ⟨5000000000, [], 0, 0⟩ 1
      ⟨[], 1000000000, 1, 4, 10, false, []⟩).2.2.1 (by norm_num),
   (growth_interval_sound ⟨7, [], 0, 0⟩ ⟨7, [], 0, 0⟩ 1
      ⟨[], 1000000000, 1, 4, 10, false, []⟩).2.2.2.1 (by norm_num)⟩

/-- C9 (amended): when every entry of the later snapshot is a
non-directory, `Scanner.CalculateGrowth` returns a permutation of
`CompareSnapshots` at the scanner's threshold — the same multiset of
entries; the order still differs in general because only
`CalculateGrowth` sorts (and on directory entries even the multisets
differ — see the counterexample). -/
theorem calculateGrowth_refines_compareSnapshots (cfg : Config)
    (snap1 snap2 : Snapshot) (hnd : ∀ kv ∈ snap2.Files, kv.2.IsDir = false) :
    (CalculateGrowth cfg snap1 snap2).Perm
      (CompareSnapshots snap1 snap2 cfg.ThresholdBytes) := by
  rw [CalculateGrowth, CompareSnapshots]
  rw [List.filterMap_congr
    (fun x hx => compareEntry_eq_calcEntry snap1 cfg.ThresholdBytes
      (intervalNs snap1 snap2) x (hnd x hx))]
  exact List.mergeSort_perm _ _

/-- Witness for C9: the two diffs agree (up to permutation) on a
concrete directory-free snapshot pair. -/
theorem calculateGrowth_refines_compareSnapshots_witness :
    (CalculateGrowth ⟨[], 1000000000, 1, 4, 10, false, []⟩ ⟨0, [], 0, 0⟩
      ⟨0, [("a", ⟨"a", 10, 0, false, 420⟩), ("b", ⟨"b", 20, 0, false, 420⟩)], 30, 2⟩).Perm
      (CompareSnapshots ⟨0, [], 0, 0⟩
        ⟨0, [("a", ⟨"a", 10, 0, false, 420⟩), ("b", ⟨"b", 20, 0, false, 420⟩)], 30, 2⟩ 1) :=
  calculateGrowth_refines_compareSnapshots ⟨[], 1000000000, 1, 4, 10, false, []⟩
    ⟨0, [], 0, 0⟩
    ⟨0, [("a", ⟨"a", 10, 0, false, 420⟩), ("b", ⟨"b", 20, 0, false, 420⟩)], 30, 2⟩
    (by decide)

/-- Counterexample to C9 as stated: on a later snapshot containing a
directory entry the two implementations do not even return the same
multiset — `CalculateGrowth` reports the directory, `CompareSnapshots`
skips it. -/
theorem calculateGrowth_ne_compareSnapshots_counterexample :
    ¬ (CalculateGrowth ⟨[], 1000000000, 10, 4, 10, false, []⟩ ⟨0, [], 0, 0⟩
        ⟨0, [("logs", ⟨"logs", 200, 0, true, 493⟩)], 0, 0⟩).Perm
      (CompareSnapshots ⟨0, [], 0, 0⟩
        ⟨0, [("logs", ⟨"logs", 200, 0, true, 493⟩)], 0, 0⟩ 10) := by
  have h1 : CalculateGrowth ⟨[], 1000000000, 10, 4, 10, false, []⟩ ⟨0, [], 0, 0⟩
      ⟨0, [("logs", ⟨"logs", 200, 0, true, 493⟩)], 0, 0⟩ =
      [⟨"logs", 0, 200, 200, 200, 1000000000⟩] := by
    simp +decide [CalculateGrowth, calcEntry, intervalNs, durationSeconds, List.mergeSort]
  have h2 : CompareSnapshots ⟨0, [], 0, 0⟩
      ⟨0, [("logs", ⟨"logs", 200, 0, true, 493⟩)], 0, 0⟩ 10 = [] := by
    simp +decide [CompareSnapshots, compareEntry]
  rw [h1, h2]
  intro hp
  simpa using hp.length_eq

/-- Inserting a key that is not yet bound appends the binding. -/
theorem insertFile_of_lookup_none {files : List (String × FileInfo)}
    {key : String} {info : FileInfo} (h : List.lookup key files = none) :
    insertFile files key info = files ++ [(key, info)] := by
  induction files with
  | nil => rfl
  | cons kv rest ih =>
    rw [List.lookup] at h
    cases hbe : (key == kv.1) with
    | true => rw [hbe] at h; cases h
    | false =>
      rw [hbe] at h
      rw [insertFile, if_neg (fun he => by simp [he] at hbe), ih h, List.cons_append]

/-- Appending one binding adds its size to the non-directory total. -/
theorem sumNonDirSizes_append (files : List (String × FileInfo))
    (key : String) (info : FileInfo) :
    sumNonDirSizes (files ++ [(key, info)]) =
      sumNonDirSizes files + (if info.IsDir then 0 else info.Size) := by
  rw [sumNonDirSizes, sumNonDirSizes, List.filter_append, List.map_append, List.sum_append]
  cases hdir : info.IsDir <;> simp [List.filter, hdir]

/-- Appending one binding adds one to the non-directory count when it is
not a directory. -/
theorem countNonDir_append (files : List (String × FileInfo))
    (key : String) (info : FileInfo) :
    countNonDir (files ++ [(key, info)]) =
      countNonDir files + (if info.IsDir then 0 else 1) := by
  rw [countNonDir, countNonDir, List.filter_append, List.length_append]
  cases hdir : info.IsDir <;> simp [List.filter, hdir]

/-- The aggregation-loop invariant of `TakeSnapshot`: starting from a
snapshot whose counters match its map and whose keys match their
records, folding a stream of records with pairwise-distinct, fresh paths
preserves all three facts. -/
theorem takeSnapshot_loop_inv (results : List FileInfo) (snap : Snapshot)
    (hnd : (results.map FileInfo.Path).Nodup)
    (hfresh : ∀ r ∈ results, List.lookup r.Path snap.Files = none)
    (hts : snap.TotalSize = sumNonDirSizes snap.Files)
    (hfc : snap.FileCount = countNonDir snap.Files)
    (hkeys : ∀ kv ∈ snap.Files, kv.1 = kv.2.Path) :
    (results.foldl takeSnapshotStep snap).TotalSize =
      sumNonDirSizes (results.foldl takeSnapshotStep snap).Files ∧
    (results.foldl takeSnapshotStep snap).FileCount =
      countNonDir (results.foldl takeSnapshotStep snap).Files ∧
    ∀ kv ∈ (results.foldl takeSnapshotStep snap).Files, kv.1 = kv.2.Path := by
  induction results generalizing snap with
  | nil => exact ⟨hts, hfc, hkeys⟩
  | cons r rs ih =>
    rw [List.foldl_cons]
    have hins : (takeSnapshotStep snap r).Files = snap.Files ++ [(r.Path, r)] :=
      insertFile_of_lookup_none (hfresh r (List.mem_cons_self r rs))
    refine ih (takeSnapshotStep snap r) (by simpa using hnd.of_cons) ?_ ?_ ?_ ?_
    · intro r' hr'
      rw [hins, List.lookup_append, hfresh r' (List.mem_cons_of_mem r hr'),
        Option.none_or, List.lookup]
      have hne : (r'.Path == r.Path) = false := by
        simp only [beq_eq_false_iff_ne, ne_eq]
        intro he
        exact (List.nodup_cons.mp (by simpa using hnd)).1
          (he ▸ List.mem_map_of_mem FileInfo.Path hr')
      rw [hne]
      rfl
    · rw [hins, sumNonDirSizes_append]
      show snap.TotalSize + _ = _
      rw [hts]
    · rw [hins, countNonDir_append]
      show snap.FileCount + _ = _
      rw [hfc]
    · intro kv hkv
      rw [hins] at hkv
      rcases List.mem_append.mp hkv with hold | hnew
      · exact hkeys kv hold
      · rw [List.mem_singleton.mp hnew]
  
/-- C10 (amended): when the collected `FileInfo` records have
pairwise-distinct paths (disjoint, non-nested scan roots), the snapshot
built by `TakeSnapshot` satisfies the internal-consistency invariant:
`TotalSize` is the sum of `Size` over the non-directory entries of
`Files`, `FileCount` is the number of such entries, and every key of
`Files` equals the `Path` of the record stored under it.  (With
duplicated paths in the result stream — reachable with overlapping
configured roots — the counters double-count while the map keeps one
entry: see the counterexample.)  The key/`Path` agreement holds
unconditionally. -/
theorem takeSnapshot_invariant (ts : Int) (results : List FileInfo)
    (hnd : (results.map FileInfo.Path).Nodup) :
    (TakeSnapshot ts results).TotalSize =
      sumNonDirSizes (TakeSnapshot ts results).Files ∧
    (TakeSnapshot ts results).FileCount =
      countNonDir (TakeSnapshot ts results).Files ∧
    ∀ kv ∈ (TakeSnapshot ts results).Files, kv.1 = kv.2.Path :=
  takeSnapshot_loop_inv results ⟨ts, [], 0, 0⟩ hnd (fun _ _ => rfl) rfl rfl
    (fun _ h => absurd h (List.not_mem_nil _))

/-- Witness for C10: a concrete two-record stream with distinct paths,
one of them a directory record. -/
theorem takeSnapshot_invariant_witness :
    (TakeSnapshot 0 [⟨"a", 5, 0, false, 420⟩, ⟨"b", 7, 0, true, 493⟩]).TotalSize =
      sumNonDirSizes (TakeSnapshot 0
        [⟨"a", 5, 0, false, 420⟩, ⟨"b", 7, 0, true, 493⟩]).Files ∧
    (TakeSnapshot 0 [⟨"a", 5, 0, false, 420⟩, ⟨"b", 7, 0, true, 493⟩]).FileCount =
      countNonDir (TakeSnapshot 0
        [⟨"a", 5, 0, false, 420⟩, ⟨"b", 7, 0, true, 493⟩]).Files ∧
    ∀ kv ∈ (TakeSnapshot 0
        [⟨"a", 5, 0, false, 420⟩, ⟨"b", 7, 0, true, 493⟩]).Files, kv.1 = kv.2.Path :=
  takeSnapshot_invariant 0 [⟨"a", 5, 0, false, 420⟩, ⟨"b", 7, 0, true, 493⟩] (by decide)

/-- Counterexample to C10 as stated: the same path collected twice (as
happens when two configured roots overlap) makes `TotalSize` and
`FileCount` count both records while `Files` keeps only the last one. -/
theorem takeSnapshot_duplicate_counterexample :
    (TakeSnapshot 0 [⟨"a", 5, 0, false, 420⟩, ⟨"a", 7, 0, false, 420⟩]).TotalSize = 12 ∧
    sumNonDirSizes (TakeSnapshot 0
      [⟨"a", 5, 0, false, 420⟩, ⟨"a", 7, 0, false, 420⟩]).Files = 7 ∧
    (TakeSnapshot 0 [⟨"a", 5, 0, false, 420⟩, ⟨"a", 7, 0, false, 420⟩]).FileCount = 2 ∧
    countNonDir (TakeSnapshot 0
      [⟨"a", 5, 0, false, 420⟩, ⟨"a", 7, 0, false, 420⟩]).Files = 1 := by
  decide

/-- C6: `Kill` on an already-exited PID returns success, never an
error.  On Unix `os.FindProcess` cannot fail, and `os.Process.Signal`
reports `ErrProcessDone` for a dead process, which `Kill` maps to a nil
error before any waiting or escalation. -/
theorem kill_exited_returns_success (k : Killer) (env : KillEnv) (pid : Int)
    (hfind : env.findProcessErr = false) (hdead : env.aliveAtSigterm = false) :
    (Kill k env pid).1 = Except.ok () := by
  rw [Kill, if_neg (by simp [hfind]), if_pos hdead]

/-- Witness for C6: a dead PID 1234 with a 5s timeout. -/
theorem kill_exited_returns_success_witness :
    (Kill ⟨5000000000⟩ ⟨false, false, false, false, false, false, false⟩ 1234).1 =
      Except.ok () :=
  kill_exited_returns_success ⟨5000000000⟩
    ⟨false, false, false, false, false, false, false⟩ 1234 rfl rfl

/-- C7: a process that survives the graceful phase receives exactly one
force-kill attempt, timestamped at the configured timeout; in every run
whatsoever, any force-kill attempt carries timestamp `k.Timeout` (never
earlier), and a process observed to exit within the timeout is never
force-killed. -/
theorem kill_sigkill_timing (k : Killer) (env : KillEnv) (pid : Int) :
    (env.findProcessErr = false → env.aliveAtSigterm = true →
      env.sigtermErr = false → env.exitsWithinTimeout = false →
      (Kill k env pid).2.filter (fun e => e.2 == Sig.SIGKILL) =
        [(k.Timeout, Sig.SIGKILL)]) ∧
    (∀ t : Int, (t, Sig.SIGKILL) ∈ (Kill k env pid).2 → t = k.Timeout) ∧
    (env.exitsWithinTimeout = true →
      ∀ t : Int, (t, Sig.SIGKILL) ∉ (Kill k env pid).2) := by
  obtain ⟨f, a, s, e, ak, ke, ag⟩ := env
  refine ⟨?_, ?_, ?_⟩
  · intro hf ha hs he
    simp only at hf ha hs he
    subst hf ha hs he
    cases ak <;> cases ke <;> cases ag <;>
      simp [Kill, List.filter] <;> rfl
  · cases f <;> cases a <;> cases s <;> cases e <;> cases ak <;> cases ke <;>
      cases ag <;> simp [Kill]
  · intro he
    simp only at he
    subst he
    cases f <;> cases a <;> cases s <;> simp [Kill]

/-- Witness for C7: a live, SIGTERM-ignoring process with a 5s timeout
receives one SIGKILL at the 5s mark. -/
theorem kill_sigkill_timing_witness :
    (Kill ⟨5000000000⟩ ⟨false, true, false, false, true, false, false⟩ 7).2.filter
      (fun e => e.2 == Sig.SIGKILL) = [(5000000000, Sig.SIGKILL)] :=
  (kill_sigkill_timing ⟨5000000000⟩
    ⟨false, true, false, false, true, false, false⟩ 7).1 rfl rfl rfl rfl

/-- A non-empty `getServiceNameFromComm` result is the trimmed comm of
the probed PID with `".service"` appended, and the lower-cased trimmed
comm contains a catalogue substring. -/
theorem getServiceNameFromComm_shape (r : ResolverEnv) (pid : Int)
    (h : getServiceNameFromComm r pid ≠ "") :
    ∃ raw, r.comm pid = some raw ∧
      getServiceNameFromComm r pid = trimStr raw ++ ".service" ∧
      (serviceNames.any (fun svc => strContains (lowerStr (trimStr raw)) svc)) = true := by
  cases hc : r.comm pid with
  | none =>
    rw [getServiceNameFromComm, hc] at h
    exact absurd rfl h
  | some raw =>
    by_cases hm : (serviceNames.any fun svc => strContains (lowerStr (trimStr raw)) svc) = true
    · refine ⟨raw, rfl, ?_, hm⟩
      rw [getServiceNameFromComm, hc]
      show (if (serviceNames.any fun svc => strContains (lowerStr (trimStr raw)) svc) = true
          then trimStr raw ++ ".service" else "") = trimStr raw ++ ".service"
      rw [if_pos hm]
    · exfalso
      apply h
      rw [getServiceNameFromComm, hc]
      show (if (serviceNames.any fun svc => strContains (lowerStr (trimStr raw)) svc) = true
          then trimStr raw ++ ".service" else "") = ""
      rw [if_neg hm]

/-- A successful `resolveLoop` run synthesizes its `ServiceInfo` from
the matched ancestor: sentinel status, `MainPID` the matched ancestor,
and `Unit` that ancestor's non-empty `getServiceNameFromComm` result. -/
theorem resolveLoop_ok (r : ResolverEnv) (pid : Int) (fuel : Nat) (cur : Int)
    (info : ServiceInfo) (h : resolveLoop r pid fuel cur = ResolveOutcome.ok info) :
    info.Status = "unknown (fallback)" ∧
    getServiceNameFromComm r info.MainPID = info.Unit ∧ info.Unit ≠ "" := by
  induction fuel generalizing cur with
  | zero => rw [resolveLoop] at h; cases h
  | succ f ih =>
    rw [resolveLoop] at h
    split at h
    · split at h
      · rename_i hname
        injection h with h
        subst h
        exact ⟨rfl, rfl, hname⟩
      · split at h
        · cases h
        · rename_i parentPID hpar
          split at h
          · cases h
          · exact ih parentPID h
    · cases h

/-- A `resolveLoop` not-found error always names the original PID. -/
theorem resolveLoop_notFound (r : ResolverEnv) (pid : Int) (fuel : Nat) (cur : Int)
    (p : Int) (h : resolveLoop r pid fuel cur = ResolveOutcome.notFound p) :
    p = pid := by
  induction fuel generalizing cur with
  | zero => rw [resolveLoop] at h; cases h
  | succ f ih =>
    rw [resolveLoop] at h
    split at h
    · split at h
      · cases h
      · split at h
        · injection h with h
          exact h.symm
        · rename_i parentPID hpar
          split at h
          · injection h with h
            exact h.symm
          · exact ih parentPID h
    · injection h with h
      exact h.symm

/-- C8 (amended): `ResolveService` invokes the tier-2 ancestor-chain
fallback exactly when tier 1 is unavailable (`conn == nil`) or its
`GetUnitByPID` query fails; a `ServiceInfo` resolved by tier 2 has
`Status = "unknown (fallback)"` and `Unit = <trimmed ancestor comm> + ".service"`
where the lower-cased comm contains a catalogue substring (NOT
`<matched-catalogue-name>.service` — see the counterexample); a
not-found outcome always names the queried PID. -/
theorem resolveService_fallback_sound (r : ResolverEnv) (fuel : Nat) (pid : Int) :
    ((ResolveService r fuel pid).2 = true ↔
      (r.connAvailable = false ∨ ∃ e, r.systemd pid = Except.error e)) ∧
    (∀ info, (ResolveService r fuel pid).2 = true →
      (ResolveService r fuel pid).1 = ResolveOutcome.ok info →
      info.Status = "unknown (fallback)" ∧
      ∃ raw, r.comm info.MainPID = some raw ∧
        info.Unit = trimStr raw ++ ".service" ∧
        (serviceNames.any (fun svc => strContains (lowerStr (trimStr raw)) svc)) = true) ∧
    (∀ p, (ResolveService r fuel pid).1 = ResolveOutcome.notFound p → p = pid) := by
  refine ⟨?_, ?_, ?_⟩
  · rw [ResolveService]
    cases hconn : r.connAvailable with
    | false => simp [hconn]
    | true =>
      cases hsys : r.systemd pid with
      | ok info => simp [hsys]
      | error e => simp [hsys]
  · intro info h2 h1
    rw [ResolveService] at h2 h1
    cases hconn : r.connAvailable with
    | false =>
      rw [hconn] at h1
      simp only [if_neg Bool.false_ne_true] at h1
      obtain ⟨hst, hname, hne⟩ := resolveLoop_ok r pid fuel pid info h1
      obtain ⟨raw, hraw, hshape, hany⟩ :=
        getServiceNameFromComm_shape r info.MainPID (hname ▸ hne)
      exact ⟨hst, raw, hraw, by rw [← hname, hshape], hany⟩
    | true =>
      rw [hconn] at h1 h2
      simp only [if_pos rfl] at h1 h2
      cases hsys : r.systemd pid with
      | ok i => rw [hsys] at h2; cases h2
      | error e =>
        rw [hsys] at h1
        obtain ⟨hst, hname, hne⟩ := resolveLoop_ok r pid fuel pid info h1
        obtain ⟨raw, hraw, hshape, hany⟩ :=
          getServiceNameFromComm_shape r info.MainPID (hname ▸ hne)
        exact ⟨hst, raw, hraw, by rw [← hname, hshape], hany⟩
  · intro p h1
    rw [ResolveService] at h1
    cases hconn : r.connAvailable with
    | false =>
      rw [hconn] at h1
      simp only [if_neg Bool.false_ne_true] at h1
      exact resolveLoop_notFound r pid fuel pid p h1
    | true =>
      rw [hconn] at h1
      simp only [if_pos rfl] at h1
      cases hsys : r.systemd pid with
      | ok i => rw [hsys] at h1; cases h1
      | error e =>
        rw [hsys] at h1
        exact resolveLoop_notFound r pid fuel pid p h1

/-- Witness for C8: on `fallbackEnv` the tier-2 fallback resolves PID 42
to its comm-derived unit with the sentinel status. -/
theorem resolveService_fallback_sound_witness :
    ServiceInfo.Status ⟨"nginx-wrapper.service", "unknown (fallback)", 42, 0, ""⟩ =
      "unknown (fallback)" ∧
    ∃ raw, fallbackEnv.comm
        (ServiceInfo.MainPID ⟨"nginx-wrapper.service", "unknown (fallback)", 42, 0, ""⟩) =
          some raw ∧
      ServiceInfo.Unit ⟨"nginx-wrapper.service", "unknown (fallback)", 42, 0, ""⟩ =
        trimStr raw ++ ".service" ∧
      (serviceNames.any (fun svc => strContains (lowerStr (trimStr raw)) svc)) = true :=
  (resolveService_fallback_sound fallbackEnv 5 42).2.1
    ⟨"nginx-wrapper.service", "unknown (fallback)", 42, 0, ""⟩ rfl (by decide)

/-- Counterexample to C8 as stated: the synthesized `Unit` is the
ancestor's comm with `".service"` appended, not
`<matched-catalogue-name>.service`.  The comm `nginx-wrapper` matches
the catalogue name `nginx`, yet the unit is `nginx-wrapper.service`,
which differs from `<c>.service` for every catalogue name `c`. -/
theorem resolveService_unit_counterexample :
    (ResolveService fallbackEnv 5 42).1 =
      ResolveOutcome.ok ⟨"nginx-wrapper.service", "unknown (fallback)", 42, 0, ""⟩ ∧
    "nginx" ∈ serviceNames ∧
    strContains (lowerStr (trimStr "nginx-wrapper")) "nginx" = true ∧
    ∀ c ∈ serviceNames, "nginx-wrapper.service" ≠ c ++ ".service" :=
  ⟨by decide, by decide, by decide, by decide⟩
